import Mathlib

/-!
Verification of the timezonedb import script.

The script fetches a list of time zones from a remote API, fetches
per-zone offset-transition details under a request-rate ceiling, and
merges the detail rows into a relational store with an anti-join
deduplication on the triple (zoneName, zoneStart, zoneEnd).

We embed the script shallowly: Python JSON values become the inductive
type Json, HTTP responses become a record carrying the fields the code
inspects, network calls become oracle functions passed as arguments,
wall-clock time becomes a rational number threaded through the pacing
loop, and the database becomes a record of three lists of rows.
-/

/-- A Python JSON value, as produced by response.json(). -/
inductive Json where
  | null
  | bool (b : Bool)
  | int (n : Int)
  | str (s : String)
  | arr (xs : List Json)
  | obj (fields : List (String × Json))
deriving Repr

/-- A JSON object, i.e. a Python dict with string keys. -/
abbrev JsonObj := List (String × Json)

mutual

/-- Structural equality of JSON values (Python == on scalars and containers). -/
def Json.beq : Json → Json → Bool
  | .null, .null => true
  | .bool a, .bool b => a == b
  | .int a, .int b => a == b
  | .str a, .str b => a == b
  | .arr xs, .arr ys => Json.beqList xs ys
  | .obj xs, .obj ys => Json.beqFields xs ys
  | _, _ => false

/-- Elementwise equality of JSON arrays. -/
def Json.beqList : List Json → List Json → Bool
  | [], [] => true
  | x :: xs, y :: ys => Json.beq x y && Json.beqList xs ys
  | _, _ => false

/-- Elementwise equality of JSON object field lists. -/
def Json.beqFields : List (String × Json) → List (String × Json) → Bool
  | [], [] => true
  | (k, v) :: xs, (l, w) :: ys => k == l && Json.beq v w && Json.beqFields xs ys
  | _, _ => false

end

/-- Python truthiness of a JSON value: None, False, 0, empty string and
empty containers are falsy, everything else is truthy. -/
def pyTruthy : Json → Bool
  | .null => false
  | .bool b => b
  | .int n => n != 0
  | .str s => s != ""
  | .arr xs => !xs.isEmpty
  | .obj fs => !fs.isEmpty

/-- Whether a JSON value is None. -/
def Json.isNull : Json → Bool
  | .null => true
  | _ => false

/-- Key lookup in a JSON object: first binding of the key, if any. -/
def jLookup : JsonObj → String → Option Json
  | [], _ => none
  | (k, v) :: rest, key => if k == key then some v else jLookup rest key

/-- Python dict.get(key): the bound value, or None when the key is absent. -/
def pyGet (j : JsonObj) (key : String) : Json :=
  (jLookup j key).getD Json.null

/-- Python dict.get(key, default): the bound value, or the default when the
key is absent (a key bound to None still returns None, not the default). -/
def pyGetD (j : JsonObj) (key : String) (dflt : Json) : Json :=
  (jLookup j key).getD dflt

/-- Python dict assignment d[key] = v on the association-list model:
replace the first binding of the key, or append a new binding. -/
def setKey : JsonObj → String → Json → JsonObj
  | [], key, v => [(key, v)]
  | (k, w) :: rest, key, v =>
    if k == key then (key, v) :: rest else (k, w) :: setKey rest key v

/-- Whether the second character list starts the first. -/
def startsWithL : List Char → List Char → Bool
  | _, [] => true
  | [], _ :: _ => false
  | a :: as, b :: bs => a == b && startsWithL as bs

/-- Whether the second character list appears contiguously in the first. -/
def containsSub : List Char → List Char → Bool
  | [], needle => needle.isEmpty
  | hay@(_ :: rest), needle => startsWithL hay needle || containsSub rest needle

/-- Substring containment test used for the Content-Type header check
(Python s1 in s2 on strings). -/
def strContains (hay needle : String) : Bool :=
  containsSub hay.data needle.data

/-- The fields of an HTTP response that the script inspects.
body is some of the decoded object when the body parses as a JSON
object, and none when response.json() would raise. -/
structure Response where
  ok : Bool
  reason : String
  contentType : Option String
  body : Option JsonObj

/-- The check in line 162 of script.py:
'application/json' not in response.headers.get('Content-Type', {}) is
false exactly when the header is present and contains the substring
(membership in the empty-dict default is always false). -/
def ctHasJson (r : Response) : Bool :=
  match r.contentType with
  | some s => strContains s "application/json"
  | none => false

/-- The error branch of extract_json (lines 160 to 166 of script.py):
with a non-JSON content type return the transport reason phrase,
otherwise read the message field of the decoded body, defaulting when
the key is absent; reading the body raises when it does not parse. -/
def extractJsonErr (r : Response) : Except String (JsonObj × Json) :=
  if !ctHasJson r then
    Except.ok ([], Json.str r.reason)
  else
    match r.body with
    | none => Except.error "response body is not valid JSON"
    | some b =>
      Except.ok ([], pyGetD b "message" (Json.str "No error message in response"))

/-- extract_json (lines 152 to 169 of script.py). The result is an Except:
ok models a normal return of (json_result, error) and error models an
uncaught exception raised inside the function (response.json() on a body
that does not parse). The condition on line 160 short-circuits: when the
transport status is ok the body is decoded to read its status field. -/
def extract_json (r : Response) : Except String (JsonObj × Json) :=
  if r.ok then
    match r.body with
    | none => Except.error "response body is not valid JSON"
    | some b =>
      if Json.beq (pyGet b "status") (Json.str "OK") then
        Except.ok (b, Json.str "")
      else
        extractJsonErr r
  else
    extractJsonErr r

/-- list_time_zone (lines 7 to 47 of script.py). The network call is an
oracle: ok of the response that came back, or error of the description of
an exception raised by the transport. Exceptions from the request or from
extract_json are caught and converted to a script-error string, leaving
json_result at its initial value (the empty list). On a normal decoder
return, the zones field of the payload is extracted with default []. -/
def list_time_zone (resp : Except String Response) : Json × Json :=
  match resp with
  | .error e => (Json.arr [], Json.str ("Python Script Error: " ++ e))
  | .ok r =>
    match extract_json r with
    | .error e => (Json.arr [], Json.str ("Python Script Error: " ++ e))
    | .ok (data, err) => (pyGetD data "zones" (Json.arr []), err)

/-- The maximum signed 64-bit integer (line 94 of script.py). -/
def max_bigint_value : Int := 9223372036854775807

/-- The bound-filling post-processing of get_time_zone_by_name
(lines 93 to 98 of script.py): on a non-empty result, a falsy zoneStart
is replaced with -max_bigint_value and a falsy zoneEnd with
max_bigint_value. -/
def fill_bounds (j : JsonObj) : JsonObj :=
  let j1 := if !j.isEmpty && !pyTruthy (pyGet j "zoneStart") then
      setKey j "zoneStart" (Json.int (-max_bigint_value))
    else j
  if !j1.isEmpty && !pyTruthy (pyGet j1 "zoneEnd") then
    setKey j1 "zoneEnd" (Json.int max_bigint_value)
  else j1

/-- get_time_zone_by_name (lines 50 to 100 of script.py), with the network
call as an oracle. Exceptions from the request or from extract_json are
caught and converted to a script-error string, with json_result left at
its initial value (the empty dict); the bound filling then runs on
whatever json_result holds. -/
def get_time_zone_by_name (resp : Except String Response) : JsonObj × Json :=
  let pr : JsonObj × Json :=
    match resp with
    | .error e => ([], Json.str ("Python Script Error: " ++ e))
    | .ok r =>
      match extract_json r with
      | .error e => ([], Json.str ("Python Script Error: " ++ e))
      | .ok (j, err) => (j, err)
  (fill_bounds pr.1, pr.2)

/-- The loop body of get_time_zone_details (lines 126 to 148 of
script.py), with the per-zone fetch as an oracle taking the zoneName
value of the summary row. Returns (zone_details, errors, calls) where
calls records the zone names the loop issued a request for, in order;
a truthy error routes the outcome to the error list, otherwise the
detail dict is appended to the success list. -/
def detailsLoop (fetch : Json → JsonObj × Json) : List JsonObj → List JsonObj × List Json × List Json
  | [] => ([], [], [])
  | tz :: rest =>
    let zone_name := pyGet tz "zoneName"
    let pr := fetch zone_name
    let tl := detailsLoop fetch rest
    if pyTruthy pr.2 then
      (tl.1, pr.2 :: tl.2.1, zone_name :: tl.2.2)
    else
      (pr.1 :: tl.1, tl.2.1, zone_name :: tl.2.2)

/-- get_time_zone_details (lines 103 to 149 of script.py), data part:
the pair (zone_details, errors) accumulated over the input zones. -/
def get_time_zone_details (fetch : Json → JsonObj × Json) (time_zones : List JsonObj) :
    List JsonObj × List Json :=
  ((detailsLoop fetch time_zones).1, (detailsLoop fetch time_zones).2.1)

/-- One pacing iteration of the loop in get_time_zone_details: from clock
value t and timer baseline start, the remote call takes d seconds, then
the loop sleeps for the remaining spacing when the elapsed time since the
baseline is below it, and the baseline resets to the new clock value. -/
def pacedStep (spacing t start d : ℚ) : ℚ :=
  if t + d - start < spacing then (t + d) + (spacing - (t + d - start)) else t + d

/-- The clock value after running the fetch loop over a list of remote
call durations, starting at clock t with timer baseline start. -/
def pacedLoop (spacing : ℚ) : List ℚ → ℚ → ℚ
  | [], t => t
  | d :: rest, t => pacedLoop spacing rest (pacedStep spacing t t d)

/-- get_time_zone_details (lines 103 to 149 of script.py), timing part:
the clock value when the loop finishes, given the start clock t0, the
rate limit, the buffer, and the duration of each remote call. The
spacing is 1 / rate_limit + buffer seconds; one full spacing is slept
before the first request, and each iteration tops its elapsed time up
to the spacing. -/
def get_time_zone_details_clock (rate_limit buffer : ℚ) (durations : List ℚ) (t0 : ℚ) : ℚ :=
  let time_per_request := 1 / rate_limit + buffer
  pacedLoop time_per_request durations (t0 + time_per_request)

/-- A row of the TZDB_TIMEZONES table (insert at lines 219 to 235 of
script.py): the four summary fields plus the shared import timestamp. -/
structure SummaryRow where
  countryCode : Json
  countryName : Json
  zoneName : Json
  gmtOffset : Json
  import_date : Nat
deriving Repr

/-- A row of the TZDB_ZONE_DETAILS table (and of the temp_zone_details
staging table, which copies its structure): the seven detail fields plus
the shared import timestamp. -/
structure DetailRow where
  zoneName : Json
  zoneStart : Json
  zoneEnd : Json
  countryCode : Json
  countryName : Json
  gmtOffset : Json
  dst : Json
  import_date : Nat
deriving Repr

/-- The persistent database state: the three tables the script writes. -/
structure DB where
  timezones : List SummaryRow
  zone_details : List DetailRow
  error_log : List Json
deriving Repr

/-- log_error (lines 172 to 180 of script.py): append one row to
TZDB_ERROR_LOG. -/
def log_error (db : DB) (err : Json) : DB :=
  { db with error_log := db.error_log ++ [err] }

/-- Building a TZDB_TIMEZONES row from a zones payload dict and the
captured import time (the named parameters of tzdb_timezones_query). -/
def mkSummaryRow (row : JsonObj) (t : Nat) : SummaryRow :=
  { countryCode := pyGet row "countryCode"
    countryName := pyGet row "countryName"
    zoneName := pyGet row "zoneName"
    gmtOffset := pyGet row "gmtOffset"
    import_date := t }

/-- Building a staged detail row from a detail payload dict and the
captured import time (the named parameters of temp_table_insert_query). -/
def mkDetailRow (row : JsonObj) (t : Nat) : DetailRow :=
  { zoneName := pyGet row "zoneName"
    zoneStart := pyGet row "zoneStart"
    zoneEnd := pyGet row "zoneEnd"
    countryCode := pyGet row "countryCode"
    countryName := pyGet row "countryName"
    gmtOffset := pyGet row "gmtOffset"
    dst := pyGet row "dst"
    import_date := t }

/-- SQL equality used in the join condition of filtered_insert_query:
a comparison involving NULL is never true. -/
def sqlEq (a b : Json) : Bool :=
  !a.isNull && !b.isNull && Json.beq a b

/-- The join condition of filtered_insert_query (lines 296 to 299 of
script.py): a destination row d matches a staged row r when they agree
on ZONENAME, ZONESTART and ZONEEND under SQL equality. -/
def keyMatch (d r : DetailRow) : Bool :=
  sqlEq d.zoneName r.zoneName && sqlEq d.zoneStart r.zoneStart && sqlEq d.zoneEnd r.zoneEnd

/-- filtered_insert_query (lines 277 to 302 of script.py): insert into the
destination every staged row that matches no existing destination row on
the (ZONENAME, ZONESTART, ZONEEND) key; the anti-join reads the
destination as it was before this statement, so staged rows are never
compared against each other or against rows inserted by the same
statement. -/
def mergeDetails (dest staged : List DetailRow) : List DetailRow :=
  dest ++ staged.filter (fun r => !dest.any (fun d => keyMatch d r))

/-- populate_data (lines 183 to 305 of script.py), over the oracle results:
listResult is what list_time_zone returned (the TZDB_TIMEZONES_entries
list and the error), fetch is the per-zone detail oracle used by
get_time_zone_details, and now is the import time captured once into
temp_time_table. A truthy list error is logged; an empty list logs the
fatal no-data error and ends the run; otherwise the summary table is
truncated and repopulated, details are fetched, per-zone errors are
logged, and the staged details are merged into the destination. -/
def populate_data (listResult : List JsonObj × Json) (fetch : Json → JsonObj × Json)
    (now : Nat) (db : DB) : DB :=
  let time_zones := listResult.1
  let db1 := if pyTruthy listResult.2 then log_error db listResult.2 else db
  if time_zones.isEmpty then
    log_error db1 (Json.str "No data received from API. List query failed.")
  else
    let db2 := { db1 with timezones := time_zones.map (fun row => mkSummaryRow row now) }
    let fetched := get_time_zone_details fetch time_zones
    let db3 := fetched.2.foldl log_error db2
    let staged := fetched.1.map (fun row => mkDetailRow row now)
    { db3 with zone_details := mergeDetails db3.zone_details staged }

mutual

/-- Json.beq is reflexive. -/
theorem Json.beq_refl : ∀ a : Json, Json.beq a a = true
  | .null => rfl
  | .bool b => by simp [Json.beq]
  | .int n => by simp [Json.beq]
  | .str s => by simp [Json.beq]
  | .arr xs => by simp [Json.beq, Json.beqList_refl xs]
  | .obj xs => by simp [Json.beq, Json.beqFields_refl xs]

/-- Json.beqList is reflexive. -/
theorem Json.beqList_refl : ∀ xs : List Json, Json.beqList xs xs = true
  | [] => rfl
  | x :: xs => by simp [Json.beqList, Json.beq_refl x, Json.beqList_refl xs]

/-- Json.beqFields is reflexive. -/
theorem Json.beqFields_refl : ∀ xs : List (String × Json), Json.beqFields xs xs = true
  | [] => rfl
  | (k, v) :: xs => by simp [Json.beqFields, Json.beq_refl v, Json.beqFields_refl xs]

end

/-- A value that beq-compares equal to a string literal is that string. -/
theorem Json.beq_str_eq (a : Json) (t : String) (h : Json.beq a (Json.str t) = true) :
    a = Json.str t := by
  cases a <;> simp_all [Json.beq]

/-- SQL equality holds on equal non-null values. -/
theorem sqlEq_self (a : Json) (h : a ≠ Json.null) : sqlEq a a = true := by
  have hn : a.isNull = false := by
    cases a
    · exact absurd rfl h
    all_goals rfl
  simp [sqlEq, hn, Json.beq_refl]

/-- The join condition holds between a row with non-null key fields and itself. -/
theorem keyMatch_self (r : DetailRow) (h1 : r.zoneName ≠ Json.null)
    (h2 : r.zoneStart ≠ Json.null) (h3 : r.zoneEnd ≠ Json.null) : keyMatch r r = true := by
  simp [keyMatch, sqlEq_self _ h1, sqlEq_self _ h2, sqlEq_self _ h3]

/-- Looking up the key just assigned returns the assigned value. -/
theorem pyGet_setKey_self (j : JsonObj) (k : String) (v : Json) :
    pyGet (setKey j k v) k = v := by
  induction j with
  | nil => simp [setKey, pyGet, jLookup]
  | cons kv rest ih =>
    obtain ⟨k', w⟩ := kv
    by_cases h : k' = k
    · simp [setKey, h, pyGet, jLookup]
    · simp only [setKey, beq_iff_eq, h, if_false]
      simpa [pyGet, jLookup, h] using ih

/-- Assignment to one key does not change the lookup of another key. -/
theorem pyGet_setKey_other (j : JsonObj) (k k' : String) (v : Json) (h : k ≠ k') :
    pyGet (setKey j k v) k' = pyGet j k' := by
  induction j with
  | nil => simp [setKey, pyGet, jLookup, h]
  | cons kv rest ih =>
    obtain ⟨k0, w⟩ := kv
    by_cases h0 : k0 = k
    · simp [setKey, h0, pyGet, jLookup, h]
    · simp only [setKey, beq_iff_eq, h0, if_false]
      by_cases h1 : k0 = k'
      · simp [pyGet, jLookup, h1]
      · simpa [pyGet, jLookup, h1] using ih

/-- Assignment never empties a dict. -/
theorem setKey_isEmpty (j : JsonObj) (k : String) (v : Json) :
    (setKey j k v).isEmpty = false := by
  cases j with
  | nil => rfl
  | cons kv rest =>
    obtain ⟨k0, w⟩ := kv
    by_cases h : k0 = k <;> simp [setKey, h]

/-- Logging a list of errors changes only the error log: the summary table
is untouched. -/
theorem foldl_log_error_timezones (es : List Json) (db : DB) :
    (es.foldl log_error db).timezones = db.timezones := by
  induction es generalizing db with
  | nil => rfl
  | cons e rest ih => simpa [log_error] using ih (log_error db e)

/-- Logging a list of errors changes only the error log: the detail table
is untouched. -/
theorem foldl_log_error_zone_details (es : List Json) (db : DB) :
    (es.foldl log_error db).zone_details = db.zone_details := by
  induction es generalizing db with
  | nil => rfl
  | cons e rest ih => simpa [log_error] using ih (log_error db e)

/-- On any failing response (transport not ok, or a decoded payload whose
status field differs from OK), extract_json takes its error branch. -/
theorem extract_json_fail_eq (r : Response)
    (hfail : r.ok = false ∨ ∃ b, r.body = some b ∧ pyGet b "status" ≠ Json.str "OK") :
    extract_json r = extractJsonErr r := by
  rcases hfail with hok | ⟨b, hb, hst⟩
  · simp [extract_json, hok]
  · by_cases hok : r.ok
    · have hbq : Json.beq (pyGet b "status") (Json.str "OK") = false := by
        cases hq : Json.beq (pyGet b "status") (Json.str "OK")
        · rfl
        · exact absurd (Json.beq_str_eq _ _ hq) hst
      simp [extract_json, hok, hb, hbq]
    · simp [extract_json, hok]

/-- The final zoneStart of fill_bounds: kept when truthy, else replaced. -/
theorem fill_bounds_zoneStart (j : JsonObj) (h : j ≠ []) :
    pyGet (fill_bounds j) "zoneStart" =
      (if pyTruthy (pyGet j "zoneStart") then pyGet j "zoneStart"
       else Json.int (-max_bigint_value)) := by
  have hne : j.isEmpty = false := by
    cases j
    · exact absurd rfl h
    · rfl
  have hk : "zoneEnd" ≠ "zoneStart" := by decide
  by_cases ht : pyTruthy (pyGet j "zoneStart") = true
  · have h1 : fill_bounds j =
        (if (!j.isEmpty && !pyTruthy (pyGet j "zoneEnd")) = true then
          setKey j "zoneEnd" (Json.int max_bigint_value)
        else j) := by
      unfold fill_bounds
      simp only [ht, Bool.not_true, Bool.and_false, Bool.false_eq_true, if_false]
    rw [h1, if_pos ht]
    split
    · exact pyGet_setKey_other _ _ _ _ hk
    · rfl
  · have ht' : pyTruthy (pyGet j "zoneStart") = false := by simpa using ht
    have h1 : fill_bounds j =
        (if (!(setKey j "zoneStart" (Json.int (-max_bigint_value))).isEmpty &&
             !pyTruthy (pyGet (setKey j "zoneStart" (Json.int (-max_bigint_value))) "zoneEnd")) = true
         then setKey (setKey j "zoneStart" (Json.int (-max_bigint_value))) "zoneEnd"
           (Json.int max_bigint_value)
         else setKey j "zoneStart" (Json.int (-max_bigint_value))) := by
      unfold fill_bounds
      simp only [ht', hne, Bool.not_false, Bool.true_and, Bool.and_self, eq_self_iff_true,
        if_true]
    rw [h1, if_neg ht]
    split
    · rw [pyGet_setKey_other _ _ _ _ hk, pyGet_setKey_self]
    · rw [pyGet_setKey_self]

/-- The final zoneEnd of fill_bounds: kept when truthy, else replaced. -/
theorem fill_bounds_zoneEnd (j : JsonObj) (h : j ≠ []) :
    pyGet (fill_bounds j) "zoneEnd" =
      (if pyTruthy (pyGet j "zoneEnd") then pyGet j "zoneEnd"
       else Json.int max_bigint_value) := by
  have hne : j.isEmpty = false := by
    cases j
    · exact absurd rfl h
    · rfl
  have hk : "zoneStart" ≠ "zoneEnd" := by decide
  by_cases hs : pyTruthy (pyGet j "zoneStart") = true
  · have h1 : fill_bounds j =
        (if (!j.isEmpty && !pyTruthy (pyGet j "zoneEnd")) = true then
          setKey j "zoneEnd" (Json.int max_bigint_value)
        else j) := by
      unfold fill_bounds
      simp only [hs, Bool.not_true, Bool.and_false, Bool.false_eq_true, if_false]
    by_cases ht : pyTruthy (pyGet j "zoneEnd") = true
    · rw [h1, if_neg (by simp [ht]), if_pos ht]
    · rw [h1, if_pos (by simp [hne, (by simpa using ht : pyTruthy (pyGet j "zoneEnd") = false)]),
        if_neg ht]
      exact pyGet_setKey_self _ _ _
  · have hs' : pyTruthy (pyGet j "zoneStart") = false := by simpa using hs
    have h1 : fill_bounds j =
        (if (!pyTruthy (pyGet j "zoneEnd")) = true then
          setKey (setKey j "zoneStart" (Json.int (-max_bigint_value))) "zoneEnd"
            (Json.int max_bigint_value)
        else setKey j "zoneStart" (Json.int (-max_bigint_value))) := by
      unfold fill_bounds
      simp only [hs', hne, Bool.not_false, Bool.true_and, Bool.and_self, eq_self_iff_true,
        if_true, setKey_isEmpty, pyGet_setKey_other _ _ _ _ hk]
    by_cases ht : pyTruthy (pyGet j "zoneEnd") = true
    · rw [h1, if_neg (by simp [ht]), if_pos ht]
      exact pyGet_setKey_other _ _ _ _ hk
    · rw [h1, if_pos (by simpa using ht), if_neg ht]
      exact pyGet_setKey_self _ _ _

/-- C6: for every non-empty zone-detail fetch result, a zoneStart that is
absent, null or zero is replaced with exactly -(2 ^ 63 - 1), a zoneEnd
that is absent, null or zero is replaced with exactly 2 ^ 63 - 1, and any
explicit non-zero zoneStart or zoneEnd value is left unchanged. -/
theorem fill_bounds_spec (j : JsonObj) (h : j ≠ []) :
    ((pyGet j "zoneStart" = Json.null ∨ pyGet j "zoneStart" = Json.int 0) →
        pyGet (fill_bounds j) "zoneStart" = Json.int (-(2 ^ 63 - 1))) ∧
    (∀ n : Int, n ≠ 0 → pyGet j "zoneStart" = Json.int n →
        pyGet (fill_bounds j) "zoneStart" = Json.int n) ∧
    ((pyGet j "zoneEnd" = Json.null ∨ pyGet j "zoneEnd" = Json.int 0) →
        pyGet (fill_bounds j) "zoneEnd" = Json.int (2 ^ 63 - 1)) ∧
    (∀ n : Int, n ≠ 0 → pyGet j "zoneEnd" = Json.int n →
        pyGet (fill_bounds j) "zoneEnd" = Json.int n) := by
  have hM : max_bigint_value = 2 ^ 63 - 1 := by norm_num [max_bigint_value]
  have hS := fill_bounds_zoneStart j h
  have hE := fill_bounds_zoneEnd j h
  refine ⟨?_, ?_, ?_, ?_⟩
  · rintro (hv | hv) <;> rw [hS, hv] <;> simp [pyTruthy, hM]
  · intro n hn hv
    rw [hS, hv]
    simp [pyTruthy, hn]
  · rintro (hv | hv) <;> rw [hE, hv] <;> simp [pyTruthy, hM]
  · intro n hn hv
    rw [hE, hv]
    simp [pyTruthy, hn]

/-- Witness for C6: a result with zoneStart zero and zoneEnd five gets
zoneStart replaced with the minimum bound while zoneEnd is preserved. -/
theorem fill_bounds_spec_witness :
    pyGet (fill_bounds [("zoneStart", Json.int 0), ("zoneEnd", Json.int 5)]) "zoneStart" =
        Json.int (-(2 ^ 63 - 1)) ∧
    pyGet (fill_bounds [("zoneStart", Json.int 0), ("zoneEnd", Json.int 5)]) "zoneEnd" =
        Json.int 5 :=
  ⟨(fill_bounds_spec _ (List.cons_ne_nil _ _)).1 (Or.inr rfl),
   (fill_bounds_spec _ (List.cons_ne_nil _ _)).2.2.2 5 (by decide) rfl⟩

/-- C4 counterexample: an HTTP 200 response whose JSON payload has status
FAILED and an empty message string is a failing response, yet extract_json
returns the empty string as the error, not a non-empty one. -/
theorem extract_json_empty_message_cex :
    pyGet [("status", Json.str "FAILED"), ("message", Json.str "")] "status" ≠ Json.str "OK" ∧
    extract_json
        { ok := true, reason := "OK", contentType := some "application/json",
          body := some [("status", Json.str "FAILED"), ("message", Json.str "")] } =
      Except.ok (([] : JsonObj), Json.str "") := by
  constructor
  · intro hE
    simp [pyGet, jLookup] at hE
  · rfl

/-- C4 (amended): on a failing response (transport not ok, or payload
status not OK), provided the body parses as JSON whenever the content
type claims JSON, the reason phrase is non-empty, and any message field
present in the body is a non-empty string, extract_json returns an empty
payload and a non-empty error string without raising. -/
theorem extract_json_error_nonempty (r : Response)
    (hfail : r.ok = false ∨ ∃ b, r.body = some b ∧ pyGet b "status" ≠ Json.str "OK")
    (hparse : ctHasJson r = true → ∃ b, r.body = some b)
    (hreason : r.reason ≠ "")
    (hmsg : ∀ b, r.body = some b → ∀ v, jLookup b "message" = some v →
        ∃ s, v = Json.str s ∧ s ≠ "") :
    ∃ s, extract_json r = Except.ok (([] : JsonObj), Json.str s) ∧ s ≠ "" := by
  rw [extract_json_fail_eq r hfail]
  by_cases hct : ctHasJson r = true
  · obtain ⟨b, hb⟩ := hparse hct
    cases hL : jLookup b "message" with
    | none =>
      refine ⟨"No error message in response", ?_, by decide⟩
      simp [extractJsonErr, hct, hb, pyGetD, hL]
    | some v =>
      obtain ⟨s, rfl, hs⟩ := hmsg b hb v hL
      refine ⟨s, ?_, hs⟩
      simp [extractJsonErr, hct, hb, pyGetD, hL]
  · refine ⟨r.reason, ?_, hreason⟩
    have hct' : ctHasJson r = false := by simpa using hct
    simp [extractJsonErr, hct']

/-- Witness for the amended C4: a rate-limit failure payload with a
non-empty message yields a non-empty error. -/
theorem extract_json_error_nonempty_witness :
    ∃ s, extract_json
        { ok := true, reason := "OK", contentType := some "application/json",
          body := some [("status", Json.str "FAILED"),
                        ("message", Json.str "Rate limit exceeded")] } =
      Except.ok (([] : JsonObj), Json.str s) ∧ s ≠ "" := by
  refine extract_json_error_nonempty _ (Or.inr ⟨_, rfl, ?_⟩) (fun _ => ⟨_, rfl⟩) (by decide) ?_
  · intro hE
    simp [pyGet, jLookup] at hE
  · intro b hb v hv
    cases hb
    cases hv
    exact ⟨"Rate limit exceeded", rfl, by decide⟩

/-- C5: for every response whose content type does not claim JSON and
that is failing (transport not ok, or decoded payload status not OK),
extract_json returns the transport reason phrase as the error, without
reading a message field from the payload. -/
theorem extract_json_non_json_ct (r : Response)
    (hct : ctHasJson r = false)
    (hfail : r.ok = false ∨ ∃ b, r.body = some b ∧ pyGet b "status" ≠ Json.str "OK") :
    extract_json r = Except.ok (([] : JsonObj), Json.str r.reason) := by
  rw [extract_json_fail_eq r hfail]
  simp [extractJsonErr, hct]

/-- Witness for C5: a plain-text 404 response yields the reason phrase. -/
theorem extract_json_non_json_ct_witness :
    extract_json { ok := false, reason := "Not Found", contentType := some "text/html",
                   body := none } =
      Except.ok (([] : JsonObj), Json.str "Not Found") :=
  extract_json_non_json_ct _ rfl (Or.inl rfl)

/-- A normal return of extract_json carries either the empty-string error
(the success branch) or an empty payload (the failure branch). -/
theorem extract_json_shape (r : Response) (data : JsonObj) (err : Json)
    (h : extract_json r = Except.ok (data, err)) :
    err = Json.str "" ∨ data = [] := by
  unfold extract_json extractJsonErr at h
  repeat' split at h
  all_goals first
    | (cases h; exact Or.inl rfl)
    | (cases h; exact Or.inr rfl)
    | cases h

/-- C9: whenever the error output of list_time_zone is truthy, the
returned zone list is empty, so a partial list alongside an error cannot
occur. -/
theorem list_time_zone_no_partial (resp : Except String Response)
    (h : pyTruthy (list_time_zone resp).2 = true) :
    (list_time_zone resp).1 = Json.arr [] := by
  match resp with
  | .error e => rfl
  | .ok r =>
    cases hx : extract_json r with
    | error e => simp [list_time_zone, hx]
    | ok pr =>
      obtain ⟨data, err⟩ := pr
      rcases extract_json_shape r data err hx with he | hd
      · exfalso
        rw [list_time_zone] at h
        simp only [hx] at h
        rw [he] at h
        exact absurd h (by decide)
      · simp [list_time_zone, hx, hd, pyGetD, jLookup]

/-- Witness for C9: a transport exception yields a truthy error and an
empty zone list. -/
theorem list_time_zone_no_partial_witness :
    pyTruthy (list_time_zone (Except.error "connection refused")).2 = true ∧
    (list_time_zone (Except.error "connection refused")).1 = Json.arr [] :=
  ⟨rfl, list_time_zone_no_partial _ rfl⟩

/-- C1: running the merge twice over the same destination with identical
staged detail rows (with non-null key fields, as the pipeline produces)
changes nothing the second time, and every staged row whose
(zoneName, zoneStart, zoneEnd) triple matches no existing destination row
is inserted by the first run. -/
theorem mergeDetails_idempotent (dest staged : List DetailRow)
    (h : ∀ r ∈ staged,
        r.zoneName ≠ Json.null ∧ r.zoneStart ≠ Json.null ∧ r.zoneEnd ≠ Json.null) :
    mergeDetails (mergeDetails dest staged) staged = mergeDetails dest staged ∧
    ∀ r ∈ staged, (∀ d ∈ dest, keyMatch d r = false) → r ∈ mergeDetails dest staged := by
  constructor
  · have hfil : staged.filter
        (fun r => !(mergeDetails dest staged).any (fun d => keyMatch d r)) = [] := by
      rw [List.filter_eq_nil_iff]
      intro r hr
      obtain ⟨h1, h2, h3⟩ := h r hr
      have hany : (mergeDetails dest staged).any (fun d => keyMatch d r) = true := by
        rw [List.any_eq_true]
        by_cases hc : dest.any (fun d => keyMatch d r) = true
        · rw [List.any_eq_true] at hc
          obtain ⟨d, hd, hk⟩ := hc
          exact ⟨d, List.mem_append_left _ hd, hk⟩
        · have hc' : (dest.any fun d => keyMatch d r) = false := by simpa using hc
          refine ⟨r, ?_, keyMatch_self r h1 h2 h3⟩
          exact List.mem_append_right _ (List.mem_filter.mpr ⟨hr, by simp [hc']⟩)
      simp [hany]
    show mergeDetails dest staged ++ _ = mergeDetails dest staged
    rw [hfil, List.append_nil]
  · intro r hr hnd
    have hf : (dest.any fun d => keyMatch d r) = false :=
      List.any_eq_false.mpr (by intro d hd; simp [hnd d hd])
    exact List.mem_append_right _ (List.mem_filter.mpr ⟨hr, by simp [hf]⟩)

/-- A well-formed detail row used to instantiate the merge theorems. -/
def sampleDetail : DetailRow :=
  { zoneName := Json.str "Europe/Andorra", zoneStart := Json.int (-9223372036854775807),
    zoneEnd := Json.int 9223372036854775807, countryCode := Json.str "AD",
    countryName := Json.str "Andorra", gmtOffset := Json.int 7200, dst := Json.bool false,
    import_date := 0 }

/-- Witness for C1: merging the same single staged row twice into an
empty destination leaves the result of the first merge unchanged. -/
theorem mergeDetails_idempotent_witness :
    mergeDetails (mergeDetails [] [sampleDetail]) [sampleDetail] =
      mergeDetails [] [sampleDetail] :=
  (mergeDetails_idempotent [] [sampleDetail] (by
    intro r hr
    rw [List.mem_singleton] at hr
    subst hr
    exact ⟨fun hE => Json.noConfusion hE, fun hE => Json.noConfusion hE,
      fun hE => Json.noConfusion hE⟩)).1

/-- C10: two staged rows carrying the same key triple that is absent from
the destination are both inserted: the anti-join deduplicates staged rows
only against pre-existing destination rows, never against each other. -/
theorem mergeDetails_within_batch (dest : List DetailRow) (r1 r2 : DetailRow)
    (hkey : r1.zoneName = r2.zoneName ∧ r1.zoneStart = r2.zoneStart ∧
      r1.zoneEnd = r2.zoneEnd)
    (hnew : ∀ d ∈ dest, keyMatch d r1 = false) :
    mergeDetails dest [r1, r2] = dest ++ [r1, r2] := by
  unfold mergeDetails
  congr 1
  have h1 : (dest.any fun d => keyMatch d r1) = false :=
    List.any_eq_false.mpr (by intro d hd; simp [hnew d hd])
  have h2 : (dest.any fun d => keyMatch d r2) = false := by
    rw [List.any_eq_false]
    intro d hd
    have heq : keyMatch d r2 = keyMatch d r1 := by
      unfold keyMatch
      rw [← hkey.1, ← hkey.2.1, ← hkey.2.2]
    simp [heq, hnew d hd]
  simp [List.filter_cons, h1, h2]

/-- A second well-formed detail row with the same key triple as
sampleDetail but different non-key fields. -/
def sampleDetail2 : DetailRow :=
  { sampleDetail with gmtOffset := Json.int 3600, import_date := 7 }

/-- Witness for C10: both same-key staged rows enter an empty destination. -/
theorem mergeDetails_within_batch_witness :
    mergeDetails [] [sampleDetail, sampleDetail2] = [] ++ [sampleDetail, sampleDetail2] :=
  mergeDetails_within_batch [] sampleDetail sampleDetail2 ⟨rfl, rfl, rfl⟩
    (by intro d hd; cases hd)

/-- Each pacing iteration advances the clock by at least the spacing
beyond its timer baseline. -/
theorem pacedStep_ge (spacing t d : ℚ) : t + spacing ≤ pacedStep spacing t t d := by
  unfold pacedStep
  by_cases hlt : t + d - t < spacing
  · rw [if_pos hlt]
    linarith
  · rw [if_neg hlt]
    linarith

/-- The fetch loop advances the clock by at least one spacing per
processed duration. -/
theorem pacedLoop_ge (spacing : ℚ) (ds : List ℚ) (t : ℚ) :
    t + ds.length * spacing ≤ pacedLoop spacing ds t := by
  induction ds generalizing t with
  | nil => simp [pacedLoop]
  | cons d rest ih =>
    have h1 : t + spacing ≤ pacedStep spacing t t d := pacedStep_ge spacing t d
    have h2 := ih (pacedStep spacing t t d)
    have h3 : pacedLoop spacing (d :: rest) t =
        pacedLoop spacing rest (pacedStep spacing t t d) := rfl
    rw [h3]
    have hlen : ((d :: rest).length : ℚ) * spacing =
        spacing + (rest.length : ℚ) * spacing := by
      push_cast [List.length_cons]
      ring
    linarith

/-- C2: for every list of N remote-call durations, every positive rate R
and nonnegative buffer B, the total wall-clock duration of the batch
fetch is at least N * (1 / R + B), no matter how quickly each remote
call returns. -/
theorem get_time_zone_details_clock_floor (rate_limit buffer t0 : ℚ) (durations : List ℚ)
    (hr : 0 < rate_limit) (hb : 0 ≤ buffer) (hd : ∀ d ∈ durations, 0 ≤ d) :
    (durations.length : ℚ) * (1 / rate_limit + buffer) ≤
      get_time_zone_details_clock rate_limit buffer durations t0 - t0 := by
  have hs : 0 < 1 / rate_limit + buffer := by positivity
  have h := pacedLoop_ge (1 / rate_limit + buffer) durations (t0 + (1 / rate_limit + buffer))
  have hrw : get_time_zone_details_clock rate_limit buffer durations t0 =
      pacedLoop (1 / rate_limit + buffer) durations (t0 + (1 / rate_limit + buffer)) := rfl
  rw [hrw]
  linarith

/-- Witness for C2: two instant calls at rate one and buffer one still
take at least four seconds. -/
theorem get_time_zone_details_clock_floor_witness :
    (([0, 0] : List ℚ).length : ℚ) * (1 / 1 + 1) ≤
      get_time_zone_details_clock 1 1 [0, 0] 0 - 0 :=
  get_time_zone_details_clock_floor 1 1 0 [0, 0] (by norm_num) (by norm_num)
    (by intro d hdm; fin_cases hdm <;> norm_num)

/-- C7: the batch fetch issues exactly one request per input zone, in
order; every zone whose fetch returned a truthy error contributes only to
the error list, every other zone only to the detail list, and the two
output lengths sum to the input length. -/
theorem get_time_zone_details_partition (fetch : Json → JsonObj × Json) (tzs : List JsonObj) :
    (detailsLoop fetch tzs).2.2 = tzs.map (fun tz => pyGet tz "zoneName") ∧
    (get_time_zone_details fetch tzs).1 =
      (tzs.filter (fun tz => !pyTruthy (fetch (pyGet tz "zoneName")).2)).map
        (fun tz => (fetch (pyGet tz "zoneName")).1) ∧
    (get_time_zone_details fetch tzs).2 =
      (tzs.filter (fun tz => pyTruthy (fetch (pyGet tz "zoneName")).2)).map
        (fun tz => (fetch (pyGet tz "zoneName")).2) ∧
    (get_time_zone_details fetch tzs).1.length + (get_time_zone_details fetch tzs).2.length =
      tzs.length := by
  induction tzs with
  | nil => exact ⟨rfl, rfl, rfl, rfl⟩
  | cons tz rest ih =>
    obtain ⟨ih1, ih2, ih3, ih4⟩ := ih
    simp only [get_time_zone_details] at ih2 ih3 ih4 ⊢
    by_cases hp : pyTruthy (fetch (pyGet tz "zoneName")).2 = true
    · have hD : detailsLoop fetch (tz :: rest) =
          ((detailsLoop fetch rest).1,
            (fetch (pyGet tz "zoneName")).2 :: (detailsLoop fetch rest).2.1,
            pyGet tz "zoneName" :: (detailsLoop fetch rest).2.2) := by
        simp [detailsLoop, hp]
      rw [hD]
      refine ⟨?_, ?_, ?_, ?_⟩
      · simpa [List.map_cons] using ih1
      · simpa [List.filter_cons, hp] using ih2
      · simpa [List.filter_cons, hp] using ih3
      · simp only [List.length_cons]
        omega
    · have hp' : pyTruthy (fetch (pyGet tz "zoneName")).2 = false := by simpa using hp
      have hD : detailsLoop fetch (tz :: rest) =
          ((fetch (pyGet tz "zoneName")).1 :: (detailsLoop fetch rest).1,
            (detailsLoop fetch rest).2.1,
            pyGet tz "zoneName" :: (detailsLoop fetch rest).2.2) := by
        simp [detailsLoop, hp']
      rw [hD]
      refine ⟨?_, ?_, ?_, ?_⟩
      · simpa [List.map_cons] using ih1
      · simpa [List.filter_cons, hp'] using ih2
      · simpa [List.filter_cons, hp'] using ih3
      · simp only [List.length_cons]
        omega

/-- C3 counterexample: when the list fetch comes back empty together with
a non-empty error message, the run appends two error-log rows (the fetch
error and the fatal no-data error), not exactly one. -/
theorem populate_data_empty_list_cex :
    (populate_data ([], Json.str "HTTP request failed") (fun _ => ([], Json.str "")) 0
        { timezones := [], zone_details := [], error_log := [] }).error_log.length ≠ 1 := by
  decide

/-- C3 (amended): when the fetched zone list is empty the run appends the
fatal no-data error row, preceded by one more row exactly when the fetch
error was truthy; the summary and detail tables are untouched (no
truncate, no insert), and the per-zone batch fetch is never invoked (the
result does not depend on the detail oracle). -/
theorem populate_data_empty_list (err : Json) (fetch : Json → JsonObj × Json)
    (now : Nat) (db : DB) :
    (populate_data ([], err) fetch now db).timezones = db.timezones ∧
    (populate_data ([], err) fetch now db).zone_details = db.zone_details ∧
    (populate_data ([], err) fetch now db).error_log =
      db.error_log ++ (if pyTruthy err then [err] else []) ++
        [Json.str "No data received from API. List query failed."] ∧
    ∀ g : Json → JsonObj × Json,
      populate_data ([], err) g now db = populate_data ([], err) fetch now db := by
  by_cases hp : pyTruthy err = true
  · refine ⟨?_, ?_, ?_, fun g => ?_⟩ <;>
      simp [populate_data, log_error, hp, List.append_assoc]
  · have hp' : pyTruthy err = false := by simpa using hp
    refine ⟨?_, ?_, ?_, fun g => ?_⟩ <;>
      simp [populate_data, log_error, hp']

/-- On a non-empty zone list, the run replaces the summary table with the
freshly stamped rows and merges the freshly stamped staged details. -/
theorem populate_data_nonempty_form (tzs : List JsonObj) (err : Json)
    (fetch : Json → JsonObj × Json) (now : Nat) (db : DB) (hne : tzs.isEmpty = false) :
    (populate_data (tzs, err) fetch now db).timezones =
      tzs.map (fun row => mkSummaryRow row now) ∧
    (populate_data (tzs, err) fetch now db).zone_details =
      mergeDetails db.zone_details
        ((get_time_zone_details fetch tzs).1.map (fun row => mkDetailRow row now)) := by
  unfold populate_data
  simp only [hne, Bool.false_eq_true, if_false, get_time_zone_details]
  constructor
  · rw [foldl_log_error_timezones]
  · rw [foldl_log_error_zone_details]
    congr 1
    split <;> simp [log_error]

/-- C8: in a run over a non-empty zone list, every row inserted into the
summary table and every row appended to the detail table carries the
one import timestamp captured at run start. -/
theorem populate_data_shared_timestamp (tzs : List JsonObj) (err : Json)
    (fetch : Json → JsonObj × Json) (now : Nat) (db : DB) (h : tzs ≠ []) :
    (∀ r ∈ (populate_data (tzs, err) fetch now db).timezones, r.import_date = now) ∧
    (∀ r ∈ (populate_data (tzs, err) fetch now db).zone_details.drop
        db.zone_details.length, r.import_date = now) := by
  have hne : tzs.isEmpty = false := by
    cases tzs
    · exact absurd rfl h
    · rfl
  obtain ⟨ht, hz⟩ := populate_data_nonempty_form tzs err fetch now db hne
  constructor
  · intro r hr
    rw [ht] at hr
    obtain ⟨row, _, rfl⟩ := List.mem_map.mp hr
    rfl
  · intro r hr
    rw [hz] at hr
    unfold mergeDetails at hr
    rw [List.drop_left] at hr
    have hm := (List.mem_filter.mp hr).1
    obtain ⟨row, _, rfl⟩ := List.mem_map.mp hm
    rfl

/-- Witness for C8: a one-zone run at import time five stamps every
summary row and every appended detail row with five. -/
theorem populate_data_shared_timestamp_witness :
    (∀ r ∈ (populate_data ([[("zoneName", Json.str "A")]], Json.str "")
        (fun z => ([("zoneName", z)], Json.str "")) 5
        { timezones := [], zone_details := [], error_log := [] }).timezones,
      r.import_date = 5) ∧
    (∀ r ∈ (populate_data ([[("zoneName", Json.str "A")]], Json.str "")
        (fun z => ([("zoneName", z)], Json.str "")) 5
        { timezones := [], zone_details := [], error_log := [] }).zone_details.drop
        ({ timezones := [], zone_details := [], error_log := [] } : DB).zone_details.length,
      r.import_date = 5) :=
  populate_data_shared_timestamp _ _ _ _ _ (List.cons_ne_nil _ _)
